import Mathlib

/-!
Shallow embedding of the authentication and prediction service implemented in
`src/service.py` of the admissions-prediction repository.

The embedding has two layers:

* a claims-level layer, where a JWT is represented by the payload it carries
  and the key it was signed with (the external PyJWT codec is modelled per
  spec section 4.1: signature check against the process secret, expiry check
  `exp <= now` with zero leeway), and where the service functions
  `create_access_token`, `decode_token`, `verify_token`, `login` and the
  `predict` endpoint pipeline are translated directly from the source;

* a string-level layer modelling the header-to-token extraction of
  `verify_token` (Python `auth_header.split("Bearer ")[1]`), with a faithful
  embedding of Python `str.split` for a nonempty separator.

Times are integers (Unix seconds). Floats of the source are modelled as
rationals; none of the verified properties depends on rounding.
-/

namespace AdmissionsService

/-- JWT signing secret, the constant `SECRET_KEY` in `service.py`. -/
def SECRET_KEY : String := "your-secret-key-here"

/-- Token lifetime in minutes, the constant `ACCESS_TOKEN_EXPIRE_MINUTES` in
`service.py`. -/
def ACCESS_TOKEN_EXPIRE_MINUTES : Int := 30

/-- One record of the in-memory user table: a dict
`{"username": ..., "password": ...}`. -/
structure UserRecord where
  username : String
  password : String
deriving DecidableEq

/-- The in-memory credential table `users_db` from `service.py`, as an
association list keyed by username. -/
def users_db : List (String × UserRecord) :=
  [("admin", ⟨"admin", "admin123"⟩), ("user", ⟨"user", "pass123"⟩)]

/-- Python `users_db.get(u)`. -/
def usersGet (u : String) : Option UserRecord :=
  (users_db.find? (fun p => p.1 == u)).map (fun p => p.2)

/-- Python `u in users_db`: membership among the keys of the table. -/
def userExists (u : String) : Bool :=
  (usersGet u).isSome

/-- Decoded JWT payload as the service uses it: the `"sub"` entry (possibly
absent) and the `"exp"` entry, a Unix timestamp in seconds. -/
structure Claims where
  sub : Option String
  exp : Int
deriving DecidableEq

/-- Modelled from the spec: a wire-level JWT as consumed by the external
PyJWT codec (`TokenCodec`, spec section 4.1). `signed payload key` stands for
a structurally well-formed JWT whose signature was produced with `key`;
`malformed` stands for any string that is not a well-formed JWT. -/
inductive Jwt where
  | signed (payload : Claims) (key : String)
  | malformed
deriving DecidableEq

/-- Error taxonomy of `TokenCodec.decode` (spec section 4.1): malformed
payload, signature mismatch, or expired claims. All three surface as
`jwt.PyJWTError` in the source. -/
inductive DecodeError where
  | malformedToken
  | signatureInvalid
  | expired
deriving DecidableEq

/-- Modelled from the spec: `jwt.decode(token, secret, algorithms=[ALGORITHM])`
(`TokenCodec.decode`, spec section 4.1). The signature must have been made
with the given secret; with zero leeway the token is expired exactly when
`exp <= now` (spec: "If the signature is valid but `expiresAt <= now`,
returns `Expired`"). -/
def jwtDecode (now : Int) (secret : String) : Jwt → Except DecodeError Claims
  | .malformed => .error .malformedToken
  | .signed payload key =>
    if key ≠ secret then .error .signatureInvalid
    else if payload.exp ≤ now then .error .expired
    else .ok payload

/-- `create_access_token(data, expires_delta)` from `service.py`: copies the
claims, sets `exp = datetime.utcnow() + expires_delta` when `expires_delta`
is truthy (a `timedelta` is falsy exactly when it is zero), otherwise
`exp = utcnow() + ACCESS_TOKEN_EXPIRE_MINUTES minutes`, and signs the payload
with `SECRET_KEY`. `now` stands for `utcnow()` in seconds; `sub` is the
`"sub"` entry of the `data` dict (the only entry the callers pass). -/
def create_access_token (now : Int) (sub : Option String)
    (expires_delta : Option Int) : Jwt :=
  let expire : Int :=
    match expires_delta with
    | some d => if d ≠ 0 then now + d else now + ACCESS_TOKEN_EXPIRE_MINUTES * 60
    | none => now + ACCESS_TOKEN_EXPIRE_MINUTES * 60
  .signed ⟨sub, expire⟩ SECRET_KEY

/-- `decode_token(token)` from `service.py`: decode and verify the JWT,
return `payload.get("sub")`, or `None` when that is absent or any
`jwt.PyJWTError` was raised. -/
def decode_token (now : Int) (token : Jwt) : Option String :=
  match jwtDecode now SECRET_KEY token with
  | .error _ => none
  | .ok payload =>
    match payload.sub with
    | none => none
    | some username => some username

/-- The `Authorization` header as the control flow of `verify_token`
distinguishes it: absent (`context.http_headers.get` returned `None`), the
empty string (falsy), a nonempty string that does not start with
`"Bearer "`, or `"Bearer "` followed by a well-formed JWT string carrying
`token`. A JWT string contains no space, so on such headers Python
`auth_header.split("Bearer ")[1]` yields exactly the token part; see
`extractToken` below for the string-level behaviour on arbitrary headers. -/
inductive AuthHeader where
  | missing
  | empty
  | notBearer
  | bearer (token : Jwt)
deriving DecidableEq

/-- `verify_token(auth_header)` from `service.py`: reject falsy headers,
reject headers not starting with `"Bearer "`, decode the extracted token,
and require the decoded username to be a key of `users_db`. -/
def verify_token (now : Int) (auth_header : AuthHeader) : Option String :=
  match auth_header with
  | .missing => none
  | .empty => none
  | .notBearer => none
  | .bearer token =>
    match decode_token now token with
    | none => none
    | some username =>
      if userExists username then some username else none

/-- A `bentoml.exceptions.BentoMLException` carrying a status code and a
message, as raised by `login` and `predict`. -/
structure ApiError where
  status_code : Nat
  message : String
deriving DecidableEq

/-- The `UserCredentials` pydantic model of `service.py`. -/
structure UserCredentials where
  username : String
  password : String
deriving DecidableEq

/-- The `Token` pydantic model of `service.py`. -/
structure Token where
  access_token : Jwt
  token_type : String
deriving DecidableEq

/-- `login(user_credentials)` from `service.py`: look the user up, reject
with a 401 `"Incorrect username or password"` when the user is absent or the
password differs, otherwise issue a token with subject `username` and a
30-minute expiry. -/
def login (now : Int) (c : UserCredentials) : Except ApiError Token :=
  match usersGet c.username with
  | none => .error ⟨401, "Incorrect username or password"⟩
  | some user =>
    if c.password ≠ user.password then
      .error ⟨401, "Incorrect username or password"⟩
    else
      .ok ⟨create_access_token now (some c.username)
            (some (ACCESS_TOKEN_EXPIRE_MINUTES * 60)), "bearer"⟩

/-- The `PredictionFeatures` pydantic model of `service.py` (floats as
rationals). -/
structure PredictionFeatures where
  GRE_Score : Int
  TOEFL_Score : Int
  University_Rating : Int
  SOP : Rat
  LOR : Rat
  CGPA : Rat
  Research : Int
deriving DecidableEq

/-- Names of the fields of `PredictionFeatures` whose declared pydantic bound
(`Field(..., ge=..., le=...)` in `service.py`) the record violates, in
declaration order. -/
def invalidFields (f : PredictionFeatures) : List String :=
  (if 0 ≤ f.GRE_Score ∧ f.GRE_Score ≤ 340 then [] else ["GRE_Score"]) ++
  (if 0 ≤ f.TOEFL_Score ∧ f.TOEFL_Score ≤ 120 then [] else ["TOEFL_Score"]) ++
  (if 1 ≤ f.University_Rating ∧ f.University_Rating ≤ 5 then [] else ["University_Rating"]) ++
  (if 1 ≤ f.SOP ∧ f.SOP ≤ 5 then [] else ["SOP"]) ++
  (if 1 ≤ f.LOR ∧ f.LOR ≤ 5 then [] else ["LOR"]) ++
  (if 0 ≤ f.CGPA ∧ f.CGPA ≤ 10 then [] else ["CGPA"]) ++
  (if 0 ≤ f.Research ∧ f.Research ≤ 1 then [] else ["Research"])

/-- The `PredictionResponse` pydantic model of `service.py`. -/
structure PredictionResponse where
  chance_of_admit : Rat
deriving DecidableEq

/-- Rejection of a `predict` request: a pydantic validation error naming the
offending fields, or a `BentoMLException` from the authentication gate. -/
inductive PredictError where
  | validation (fields : List String)
  | unauthorized (e : ApiError)
deriving DecidableEq

/-- Python `max(0, min(1, prediction))` from `predict`. -/
def clampUnit (p : Rat) : Rat := max 0 (min 1 p)

/-- The `predict` endpoint pipeline of `service.py`: BentoML first validates
the request body against the `PredictionFeatures` pydantic model (rejecting
before the handler runs), then the handler checks the `Authorization` header
via `verify_token` (raising a 401 `BentoMLException` on failure), and only
then awaits the model runner (`PredictionAdapter`) and clamps its result into
`[0, 1]`. The runner is passed as a function of the features; the second
component of the result counts how many times it was invoked. -/
def predict (now : Int) (auth_header : AuthHeader) (f : PredictionFeatures)
    (runner : PredictionFeatures → Rat) :
    Except PredictError PredictionResponse × Nat :=
  if invalidFields f ≠ [] then
    (.error (.validation (invalidFields f)), 0)
  else
    match verify_token now auth_header with
    | none =>
      (.error (.unauthorized
        ⟨401, "Authentication failed. Please provide a valid JWT token."⟩), 0)
    | some _ => (.ok ⟨clampUnit (runner f)⟩, 1)

/-! ### String-level model of the header-to-token extraction -/

/-- The literal scheme marker `"Bearer "` as a character list. -/
def bearerSep : List Char := "Bearer ".toList

/-- Fuel-indexed Python `str.split(sep)` on character lists for a nonempty
`sep`: scan left to right, cutting at each non-overlapping occurrence of
`sep`. Any fuel of at least the length of the scanned list gives the split. -/
def pySplitF (sep : List Char) : Nat → List Char → List (List Char)
  | _, [] => [[]]
  | 0, c :: rest => [c :: rest]
  | fuel + 1, c :: rest =>
    if sep ≠ [] ∧ sep.isPrefixOf (c :: rest) then
      [] :: pySplitF sep fuel (rest.drop (sep.length - 1))
    else
      match pySplitF sep fuel rest with
      | [] => [[c]]
      | t :: ts => (c :: t) :: ts

/-- Python `s.split(sep)` for a nonempty separator. -/
def pySplit (sep s : List Char) : List (List Char) :=
  pySplitF sep s.length s

/-- Whether `sep` occurs as a contiguous segment of `s`. -/
def containsSeq (sep : List Char) : List Char → Bool
  | [] => sep.isPrefixOf ([] : List Char)
  | c :: rest => sep.isPrefixOf (c :: rest) || containsSeq sep rest

/-- The header-to-token extraction step of `verify_token` (`service.py`
lines 112-118) at string level: `None` for a falsy header or one not
starting with `"Bearer "`, otherwise `auth_header.split("Bearer ")[1]`
(index 1 exists whenever the header starts with the separator). -/
def extractToken (auth_header : List Char) : Option (List Char) :=
  if auth_header = [] then none
  else if ¬ bearerSep.isPrefixOf auth_header then none
  else some ((pySplit bearerSep auth_header).getD 1 [])

end AdmissionsService

namespace AdmissionsService

/-! ### Helper lemmas about the token layer -/

/-- Issuing with a truthy `expires_delta` sets the expiry to `now + d`. -/
theorem create_access_token_some (now d : Int) (sub : Option String)
    (hd : d ≠ 0) :
    create_access_token now sub (some d) = .signed ⟨sub, now + d⟩ SECRET_KEY := by
  simp [create_access_token, hd]

/-- Decoding an unexpired token signed with the process secret yields its
subject. -/
theorem decode_token_valid (now : Int) (p : Claims) (u : String)
    (hexp : ¬ p.exp ≤ now) (hsub : p.sub = some u) :
    decode_token now (.signed p SECRET_KEY) = some u := by
  simp [decode_token, jwtDecode, hexp, hsub]

/-- The codec reports `expired` on a correctly signed token with
`exp <= now`. -/
theorem jwtDecode_expired (now : Int) (p : Claims)
    (hexp : p.exp ≤ now) :
    jwtDecode now SECRET_KEY (.signed p SECRET_KEY) = .error .expired := by
  simp [jwtDecode, hexp]

/-- `decode_token` yields no subject on an expired token. -/
theorem decode_token_expired (now : Int) (p : Claims)
    (hexp : p.exp ≤ now) :
    decode_token now (.signed p SECRET_KEY) = none := by
  simp [decode_token, jwtDecode_expired now p hexp]

/-- `verify_token` accepts a bearer header carrying an unexpired,
correctly signed token whose subject is a known user. -/
theorem verify_token_bearer_valid (now : Int) (p : Claims) (u : String)
    (hexp : ¬ p.exp ≤ now) (hsub : p.sub = some u)
    (hdb : userExists u = true) :
    verify_token now (.bearer (.signed p SECRET_KEY)) = some u := by
  simp [verify_token, decode_token_valid now p u hexp hsub, hdb]

/-! ### Claims about login and token verification -/

/-- C1: for every `(username, password)` pair present in the credential
table, `login` succeeds and returns a token such that `verify_token` on the
header `Bearer <token>`, performed at any time strictly before the token's
expiry, succeeds and yields exactly that username as the subject. -/
theorem C1_login_verify_roundtrip (u p : String) (r : UserRecord)
    (now t : Int)
    (hu : usersGet u = some r) (hp : p = r.password)
    (ht : t < now + ACCESS_TOKEN_EXPIRE_MINUTES * 60) :
    ∃ tok : Token,
      login now ⟨u, p⟩ = .ok tok ∧
      verify_token t (.bearer tok.access_token) = some u := by
  have h30 : (ACCESS_TOKEN_EXPIRE_MINUTES * 60 : Int) ≠ 0 := by decide
  refine ⟨⟨create_access_token now (some u)
    (some (ACCESS_TOKEN_EXPIRE_MINUTES * 60)), "bearer"⟩, ?_, ?_⟩
  · simp only [login, hu]
    rw [if_neg (by simp [hp])]
  · show verify_token t
      (.bearer (create_access_token now (some u)
        (some (ACCESS_TOKEN_EXPIRE_MINUTES * 60)))) = some u
    rw [create_access_token_some now _ (some u) h30]
    exact verify_token_bearer_valid t _ u (by simpa using not_le.mpr ht) rfl
      (by simp [userExists, hu])

/-- C1 witness: the concrete pair `("admin", "admin123")`, token issued at
time 0 and checked at time 60. -/
theorem C1_witness :
    ∃ tok : Token,
      login 0 ⟨"admin", "admin123"⟩ = .ok tok ∧
      verify_token 60 (.bearer tok.access_token) = some "admin" :=
  C1_login_verify_roundtrip "admin" "admin123" ⟨"admin", "admin123"⟩ 0 60
    (by decide) (by decide) (by decide)

/-- C3: a token issued at time `now` with time-to-live `T > 0` decodes to its
subject at every time strictly before `now + T`; at every time at or after
`now + T` the codec fails with the `expired` error, and `decode_token`
yields no subject. -/
theorem C3_token_expiry (u : String) (now T t : Int) (hT : 0 < T) :
    (t < now + T →
      decode_token t (create_access_token now (some u) (some T)) = some u) ∧
    (now + T ≤ t →
      jwtDecode t SECRET_KEY (create_access_token now (some u) (some T)) =
          .error .expired ∧
      decode_token t (create_access_token now (some u) (some T)) = none) := by
  have hT0 : T ≠ 0 := by omega
  rw [create_access_token_some now T (some u) hT0]
  constructor
  · intro h
    exact decode_token_valid t _ u (by simpa using not_le.mpr h) rfl
  · intro h
    exact ⟨jwtDecode_expired t _ (by simpa using h),
      decode_token_expired t _ (by simpa using h)⟩

/-- C3 witness: a token with a 60-second lifetime issued at time 0 is
accepted at time 59 and reported expired at time 60. -/
theorem C3_witness :
    decode_token 59 (create_access_token 0 (some "admin") (some 60)) =
        some "admin" ∧
    jwtDecode 60 SECRET_KEY (create_access_token 0 (some "admin") (some 60)) =
        .error .expired :=
  ⟨(C3_token_expiry "admin" 0 60 59 (by decide)).1 (by decide),
   ((C3_token_expiry "admin" 0 60 60 (by decide)).2 (by decide)).1⟩

/-- C5: for every credentials pair that does not match the table (username
absent, or password different from the stored one), `login` fails with a 401
error carrying the message "Incorrect username or password" and returns no
token. -/
theorem C5_login_invalid (now : Int) (c : UserCredentials)
    (h : usersGet c.username = none ∨
         ∃ r, usersGet c.username = some r ∧ c.password ≠ r.password) :
    login now c = .error ⟨401, "Incorrect username or password"⟩ := by
  rcases h with h | ⟨r, hr, hp⟩
  · simp [login, h]
  · simp [login, hr, hp]

/-- C5 witness: a known username with the wrong password is rejected with
the exact message. -/
theorem C5_witness :
    login 0 ⟨"admin", "wrongpassword"⟩ =
      .error ⟨401, "Incorrect username or password"⟩ :=
  C5_login_invalid 0 ⟨"admin", "wrongpassword"⟩
    (Or.inr ⟨⟨"admin", "admin123"⟩, by decide, by decide⟩)

/-- C7: a token with a valid signature and unexpired claims whose subject is
not a key of the credential table decodes to that subject, yet
`verify_token` rejects the request and returns no subject (the unknown
subject check of the gate). -/
theorem C7_unknown_subject (now : Int) (p : Claims) (u : String)
    (hsub : p.sub = some u) (hexp : now < p.exp)
    (hdb : usersGet u = none) :
    decode_token now (.signed p SECRET_KEY) = some u ∧
    verify_token now (.bearer (.signed p SECRET_KEY)) = none := by
  have hd := decode_token_valid now p u (not_le.mpr hexp) hsub
  refine ⟨hd, ?_⟩
  simp [verify_token, hd, userExists, hdb]

/-- C7 witness: a correctly signed, unexpired token for the absent account
"ghost" is rejected. -/
theorem C7_witness :
    decode_token 0 (.signed ⟨some "ghost", 100⟩ SECRET_KEY) = some "ghost" ∧
    verify_token 0 (.bearer (.signed ⟨some "ghost", 100⟩ SECRET_KEY)) = none :=
  C7_unknown_subject 0 ⟨some "ghost", 100⟩ "ghost" rfl (by decide) (by decide)

/-- C10: a token whose signature verifies and whose expiry is in the future
but whose payload carries no "sub" entry is decoded structurally by the
codec, yet `decode_token` yields no subject and the `predict` endpoint
rejects the request exactly as it rejects a malformed token, with the same
401 error. -/
theorem C10_missing_sub (now : Int) (p : Claims) (f : PredictionFeatures)
    (runner : PredictionFeatures → Rat)
    (hsub : p.sub = none) (hexp : now < p.exp) :
    jwtDecode now SECRET_KEY (.signed p SECRET_KEY) = .ok p ∧
    decode_token now (.signed p SECRET_KEY) = none ∧
    predict now (.bearer (.signed p SECRET_KEY)) f runner =
      predict now (.bearer .malformed) f runner ∧
    (invalidFields f = [] →
      predict now (.bearer (.signed p SECRET_KEY)) f runner =
        (.error (.unauthorized
          ⟨401, "Authentication failed. Please provide a valid JWT token."⟩),
         0)) := by
  have hok : jwtDecode now SECRET_KEY (.signed p SECRET_KEY) = .ok p := by
    simp [jwtDecode, not_le.mpr hexp]
  have hdec : decode_token now (.signed p SECRET_KEY) = none := by
    simp [decode_token, hok, hsub]
  have hver : verify_token now (.bearer (.signed p SECRET_KEY)) = none := by
    simp [verify_token, hdec]
  have hver2 : verify_token now (.bearer .malformed) = none := rfl
  refine ⟨hok, hdec, ?_, ?_⟩
  · simp [predict, hver, hver2]
  · intro hval
    simp [predict, hval, hver]

/-- C10 witness: a signed, unexpired token with no subject entry, checked at
time 0 with valid features, is rejected with the 401 error. -/
theorem C10_witness :
    jwtDecode 0 SECRET_KEY (.signed ⟨none, 100⟩ SECRET_KEY) =
        .ok ⟨none, 100⟩ ∧
    decode_token 0 (.signed ⟨none, 100⟩ SECRET_KEY) = none ∧
    predict 0 (.bearer (.signed ⟨none, 100⟩ SECRET_KEY))
        ⟨337, 118, 4, 4, 4, 9, 1⟩ (fun _ => 0) =
      predict 0 (.bearer .malformed) ⟨337, 118, 4, 4, 4, 9, 1⟩ (fun _ => 0) ∧
    (invalidFields ⟨337, 118, 4, 4, 4, 9, 1⟩ = [] →
      predict 0 (.bearer (.signed ⟨none, 100⟩ SECRET_KEY))
          ⟨337, 118, 4, 4, 4, 9, 1⟩ (fun _ => 0) =
        (.error (.unauthorized
          ⟨401, "Authentication failed. Please provide a valid JWT token."⟩),
         0)) :=
  C10_missing_sub 0 ⟨none, 100⟩ ⟨337, 118, 4, 4, 4, 9, 1⟩ (fun _ => 0) rfl
    (by decide)

end AdmissionsService

namespace AdmissionsService

/-! ### Claims about the predict endpoint -/

/-- C2: every predict request on which the authorization gate fails is
rejected with the 401 error and the model runner is never invoked (the
invocation count is 0). -/
theorem C2_auth_failure_short_circuits (now : Int) (h : AuthHeader)
    (f : PredictionFeatures) (runner : PredictionFeatures → Rat)
    (hf : invalidFields f = []) (hauth : verify_token now h = none) :
    predict now h f runner =
      (.error (.unauthorized
        ⟨401, "Authentication failed. Please provide a valid JWT token."⟩),
       0) := by
  simp [predict, hf, hauth]

/-- C2 witness: a request with no Authorization header and valid features is
rejected with the 401 error and a runner invocation count of 0. -/
theorem C2_witness :
    predict 0 .missing ⟨337, 118, 4, 4, 4, 9, 1⟩ (fun _ => 0) =
      (.error (.unauthorized
        ⟨401, "Authentication failed. Please provide a valid JWT token."⟩),
       0) :=
  C2_auth_failure_short_circuits 0 .missing ⟨337, 118, 4, 4, 4, 9, 1⟩
    (fun _ => 0) (by decide) rfl

/-- C6: any two predict requests rejected by the authorization gate, whatever
the internal failure causes, produce the identical observable rejection: the
same 401 status and the same message. -/
theorem C6_uniform_rejection (now₁ now₂ : Int) (h₁ h₂ : AuthHeader)
    (f₁ f₂ : PredictionFeatures) (r₁ r₂ : PredictionFeatures → Rat)
    (hf₁ : invalidFields f₁ = []) (hf₂ : invalidFields f₂ = [])
    (ha₁ : verify_token now₁ h₁ = none) (ha₂ : verify_token now₂ h₂ = none) :
    predict now₁ h₁ f₁ r₁ = predict now₂ h₂ f₂ r₂ ∧
    predict now₁ h₁ f₁ r₁ =
      (.error (.unauthorized
        ⟨401, "Authentication failed. Please provide a valid JWT token."⟩),
       0) := by
  constructor <;> simp [predict, hf₁, hf₂, ha₁, ha₂]

/-- C6 witness: a request with a missing header and a request with an
expired token are rejected identically. -/
theorem C6_witness :
    predict 0 .missing ⟨337, 118, 4, 4, 4, 9, 1⟩ (fun _ => 0) =
      predict 100 (.bearer (.signed ⟨some "admin", 10⟩ SECRET_KEY))
        ⟨337, 118, 4, 4, 4, 9, 1⟩ (fun _ => 0) ∧
    predict 0 .missing ⟨337, 118, 4, 4, 4, 9, 1⟩ (fun _ => 0) =
      (.error (.unauthorized
        ⟨401, "Authentication failed. Please provide a valid JWT token."⟩),
       0) :=
  C6_uniform_rejection 0 100 .missing
    (.bearer (.signed ⟨some "admin", 10⟩ SECRET_KEY))
    ⟨337, 118, 4, 4, 4, 9, 1⟩ ⟨337, 118, 4, 4, 4, 9, 1⟩
    (fun _ => 0) (fun _ => 0) (by decide) (by decide) rfl (by decide)

/-- C8: on an authorized, validated request the response is the runner's
value clamped into `[0, 1]`: it equals the runner's value when that value
lies in `[0, 1]`, equals 0 when the value is below 0, equals 1 when it is
above 1, and always lies within `[0, 1]`. The runner is invoked exactly
once. -/
theorem C8_clamp (now : Int) (h : AuthHeader) (f : PredictionFeatures)
    (runner : PredictionFeatures → Rat) (u : String)
    (hf : invalidFields f = []) (hauth : verify_token now h = some u) :
    predict now h f runner = (.ok ⟨clampUnit (runner f)⟩, 1) ∧
    (0 ≤ runner f ∧ runner f ≤ 1 → clampUnit (runner f) = runner f) ∧
    (runner f < 0 → clampUnit (runner f) = 0) ∧
    (1 < runner f → clampUnit (runner f) = 1) ∧
    0 ≤ clampUnit (runner f) ∧ clampUnit (runner f) ≤ 1 := by
  refine ⟨by simp [predict, hf, hauth], ?_, ?_, ?_, ?_⟩
  · rintro ⟨h0, h1⟩
    rw [clampUnit, min_eq_right h1, max_eq_right h0]
  · intro h0
    rw [clampUnit, min_eq_right (h0.le.trans zero_le_one), max_eq_left h0.le]
  · intro h1
    rw [clampUnit, min_eq_left h1.le, max_eq_right zero_le_one]
  · exact ⟨le_max_left 0 _, max_le zero_le_one (min_le_left 1 _)⟩

/-- C8 witness: an authorized request whose runner returns 2 yields a
response of 1 after clamping, with one runner invocation. -/
theorem C8_witness :
    predict 0 (.bearer (.signed ⟨some "admin", 100⟩ SECRET_KEY))
        ⟨337, 118, 4, 4, 4, 9, 1⟩ (fun _ => 2) = (.ok ⟨clampUnit 2⟩, 1) ∧
    clampUnit 2 = 1 :=
  have H := C8_clamp 0 (.bearer (.signed ⟨some "admin", 100⟩ SECRET_KEY))
    ⟨337, 118, 4, 4, 4, 9, 1⟩ (fun _ => 2) "admin" (by decide) (by decide)
  ⟨H.1, H.2.2.2.1 (by norm_num)⟩

/-- C9: a predict request whose features violate any declared field bound
(in particular `GRE_Score = 400`, outside `[0, 340]`) is rejected with a
validation error whose field list names each offending field, and the model
runner is never invoked. -/
theorem C9_bound_violation (now : Int) (h : AuthHeader)
    (f : PredictionFeatures) (runner : PredictionFeatures → Rat)
    (hviol : ¬ (0 ≤ f.GRE_Score ∧ f.GRE_Score ≤ 340) ∨
             ¬ (0 ≤ f.TOEFL_Score ∧ f.TOEFL_Score ≤ 120) ∨
             ¬ (1 ≤ f.University_Rating ∧ f.University_Rating ≤ 5) ∨
             ¬ (1 ≤ f.SOP ∧ f.SOP ≤ 5) ∨
             ¬ (1 ≤ f.LOR ∧ f.LOR ≤ 5) ∨
             ¬ (0 ≤ f.CGPA ∧ f.CGPA ≤ 10) ∨
             ¬ (0 ≤ f.Research ∧ f.Research ≤ 1)) :
    predict now h f runner = (.error (.validation (invalidFields f)), 0) ∧
    (¬ (0 ≤ f.GRE_Score ∧ f.GRE_Score ≤ 340) →
      "GRE_Score" ∈ invalidFields f) ∧
    (¬ (0 ≤ f.TOEFL_Score ∧ f.TOEFL_Score ≤ 120) →
      "TOEFL_Score" ∈ invalidFields f) ∧
    (¬ (1 ≤ f.University_Rating ∧ f.University_Rating ≤ 5) →
      "University_Rating" ∈ invalidFields f) ∧
    (¬ (1 ≤ f.SOP ∧ f.SOP ≤ 5) → "SOP" ∈ invalidFields f) ∧
    (¬ (1 ≤ f.LOR ∧ f.LOR ≤ 5) → "LOR" ∈ invalidFields f) ∧
    (¬ (0 ≤ f.CGPA ∧ f.CGPA ≤ 10) → "CGPA" ∈ invalidFields f) ∧
    (¬ (0 ≤ f.Research ∧ f.Research ≤ 1) → "Research" ∈ invalidFields f) := by
  have m1 : ¬ (0 ≤ f.GRE_Score ∧ f.GRE_Score ≤ 340) →
      "GRE_Score" ∈ invalidFields f := fun hv => by
    unfold invalidFields; rw [if_neg hv]; simp
  have m2 : ¬ (0 ≤ f.TOEFL_Score ∧ f.TOEFL_Score ≤ 120) →
      "TOEFL_Score" ∈ invalidFields f := fun hv => by
    unfold invalidFields; rw [if_neg hv]; simp
  have m3 : ¬ (1 ≤ f.University_Rating ∧ f.University_Rating ≤ 5) →
      "University_Rating" ∈ invalidFields f := fun hv => by
    unfold invalidFields; rw [if_neg hv]; simp
  have m4 : ¬ (1 ≤ f.SOP ∧ f.SOP ≤ 5) → "SOP" ∈ invalidFields f := fun hv => by
    unfold invalidFields; rw [if_neg hv]; simp
  have m5 : ¬ (1 ≤ f.LOR ∧ f.LOR ≤ 5) → "LOR" ∈ invalidFields f := fun hv => by
    unfold invalidFields; rw [if_neg hv]; simp
  have m6 : ¬ (0 ≤ f.CGPA ∧ f.CGPA ≤ 10) → "CGPA" ∈ invalidFields f :=
    fun hv => by
    unfold invalidFields; rw [if_neg hv]; simp
  have m7 : ¬ (0 ≤ f.Research ∧ f.Research ≤ 1) →
      "Research" ∈ invalidFields f := fun hv => by
    unfold invalidFields; rw [if_neg hv]; simp
  have hne : invalidFields f ≠ [] := by
    rcases hviol with hv | hv | hv | hv | hv | hv | hv
    exacts [List.ne_nil_of_mem (m1 hv), List.ne_nil_of_mem (m2 hv),
      List.ne_nil_of_mem (m3 hv), List.ne_nil_of_mem (m4 hv),
      List.ne_nil_of_mem (m5 hv), List.ne_nil_of_mem (m6 hv),
      List.ne_nil_of_mem (m7 hv)]
  exact ⟨by simp [predict, hne], m1, m2, m3, m4, m5, m6, m7⟩

/-- C9 witness: the concrete request with `GRE_Score = 400` from the test
suite is rejected with a validation error naming `GRE_Score`, with a runner
invocation count of 0. -/
theorem C9_witness :
    predict 0 .missing ⟨400, 118, 4, 4, 4, 9, 1⟩ (fun _ => 0) =
      (.error (.validation (invalidFields ⟨400, 118, 4, 4, 4, 9, 1⟩)), 0) ∧
    "GRE_Score" ∈ invalidFields ⟨400, 118, 4, 4, 4, 9, 1⟩ :=
  have H := C9_bound_violation 0 .missing ⟨400, 118, 4, 4, 4, 9, 1⟩
    (fun _ => 0) (Or.inl (by decide))
  ⟨H.1, H.2.1 (by decide)⟩

end AdmissionsService

namespace AdmissionsService

/-! ### Lemmas about the string-level extraction -/

/-- A list is a `isPrefixOf`-prefix of itself followed by anything. -/
theorem isPrefixOf_append_self (sep t : List Char) :
    sep.isPrefixOf (sep ++ t) = true := by
  induction sep with
  | nil => cases t <;> rfl
  | cons c cs ih => simp [List.isPrefixOf, ih]

/-- Splitting a list that contains no occurrence of the separator leaves it
whole. -/
theorem pySplitF_eq_single (sep t : List Char) (fuel : Nat)
    (hfuel : t.length ≤ fuel) (h : containsSeq sep t = false) :
    pySplitF sep fuel t = [t] := by
  induction t generalizing fuel with
  | nil => cases fuel <;> simp [pySplitF]
  | cons c rest ih =>
    rw [containsSeq, Bool.or_eq_false_iff] at h
    obtain ⟨h1, h2⟩ := h
    cases fuel with
    | zero => simp at hfuel
    | succ fuel =>
      rw [pySplitF, if_neg (fun hc => by rw [h1] at hc; exact absurd hc.2 (by simp))]
      rw [ih fuel (by simpa using hfuel) h2]

/-- Python `split` of `sep ++ t` for a token part `t` free of the separator:
an empty first chunk, then the whole token part. -/
theorem pySplit_sep_append (sep t : List Char) (hsep : sep ≠ [])
    (h : containsSeq sep t = false) :
    pySplit sep (sep ++ t) = [[], t] := by
  match sep, hsep with
  | c :: cs, _ =>
    show pySplitF (c :: cs) ((c :: cs) ++ t).length ((c :: cs) ++ t) = [[], t]
    simp only [List.cons_append, List.length_cons]
    rw [pySplitF, if_pos ⟨List.cons_ne_nil c cs, isPrefixOf_append_self (c :: cs) t⟩]
    simp only [List.length_cons, Nat.add_sub_cancel, List.drop_left]
    rw [pySplitF_eq_single (c :: cs) t (cs ++ t).length
      (by simp [List.length_append]) h]

/-! ### Claim C4: the header-to-token extraction -/

/-- C4 counterexample: on the header `"Bearer aBearer b"`, which starts with
`"Bearer "`, the token passed to decode is `"a"`, not the full suffix
`"aBearer b"` obtained by removing the 7-character scheme marker. -/
theorem C4_counterexample :
    bearerSep.isPrefixOf "Bearer aBearer b".toList = true ∧
    extractToken "Bearer aBearer b".toList = some "a".toList ∧
    List.drop 7 "Bearer aBearer b".toList = "aBearer b".toList ∧
    ("a".toList : List Char) ≠ "aBearer b".toList := by
  refine ⟨by decide, by decide, by decide, by decide⟩

/-- C4 (amended): the token passed to decode is the second chunk of the
Python split of the header on `"Bearer "`; for every header consisting of
the scheme marker followed by a token part that does not itself contain
`"Bearer "` (all well-formed JWT strings, which contain no space), this is
exactly the header with the marker removed. -/
theorem C4_extract_strips_marker (t : List Char)
    (h : containsSeq bearerSep t = false) :
    extractToken (bearerSep ++ t) = some t := by
  have hsep : bearerSep ≠ [] := by decide
  have hne : bearerSep ++ t ≠ [] := by
    intro h0
    exact hsep (List.append_eq_nil.mp h0).1
  unfold extractToken
  rw [if_neg hne, if_neg (not_not_intro (isPrefixOf_append_self bearerSep t)),
    pySplit_sep_append bearerSep t hsep h]
  rfl

/-- C4 witness: the separator-free token part `"abc.def.ghi"` is extracted
whole from its bearer header. -/
theorem C4_witness :
    containsSeq bearerSep "abc.def.ghi".toList = false ∧
    extractToken (bearerSep ++ "abc.def.ghi".toList) =
      some "abc.def.ghi".toList :=
  ⟨by decide, C4_extract_strips_marker "abc.def.ghi".toList (by decide)⟩

end AdmissionsService
